import Mathlib

/-!
Verification of the Basic-NodeJS-Template backend.

The embedding below follows the repository source. JavaScript strings are
modelled as lists of UTF-16 code units (`List Char`), JavaScript runtime
values as the inductive `JSValue`, and the stateful services as explicit
state-passing functions. Components whose implementation files are not part
of the checked sources (routers, controllers, token service, socket server)
are modelled from the specification; each such definition carries a doc
comment saying so.
-/

namespace NodeTemplate

/-- Model of a JavaScript runtime value as far as the logging sanitizer and
the HTTP serializers observe it: null (covering all falsy non-objects as
well, which the code returns unchanged just like null), booleans, numbers,
strings (as lists of UTF-16 units) and plain objects (ordered key/value
entries, as produced by Object.entries). -/
inductive JSValue where
  | vNull : JSValue
  | vBool : Bool → JSValue
  | vNum : Int → JSValue
  | vStr : List Char → JSValue
  | vObj : List (List Char × JSValue) → JSValue

/-- Embedding of the constant SENSITIVE_FIELDS of src/src/index.js. -/
def SENSITIVE_FIELDS : List (List Char) :=
  ["password".data, "oldPassword".data, "newPassword".data,
   "token".data, "refreshToken".data, "accessToken".data]

/-- The replacement text used for sensitive keys. -/
def REDACTED : List Char := "[REDACTED]".data

/-- The ellipsis appended by the truncation branch. -/
def DOTS : List Char := "...".data

/-- Per-entry body of the sanitize loop of src/src/index.js: a sensitive key
is redacted; otherwise a string value longer than 256 units is truncated to
its first 256 units plus an ellipsis; every other value is kept as is. -/
def sanitizeEntry (key : List Char) (v : JSValue) : JSValue :=
  if key ∈ SENSITIVE_FIELDS then .vStr REDACTED
  else
    match v with
    | .vStr s => if 256 < s.length then .vStr (s.take 256 ++ DOTS) else .vStr s
    | w => w

/-- Embedding of the sanitize function of src/src/index.js: falsy values and
non-objects are returned unchanged; an object is rebuilt entry by entry with
`sanitizeEntry` applied at each top-level key. -/
def sanitize : JSValue → JSValue
  | .vObj entries => .vObj (entries.map fun kv => (kv.1, sanitizeEntry kv.1 kv.2))
  | v => v

/-- Example of a sanitize run on a small object. -/
example :
    sanitize (.vObj [("password".data, .vStr "hunter2".data),
                     ("note".data, .vStr "ok".data)])
      = .vObj [("password".data, .vStr REDACTED),
               ("note".data, .vStr "ok".data)] := rfl

theorem sanitizeEntry_sensitive (key : List Char) (v : JSValue)
    (h : key ∈ SENSITIVE_FIELDS) : sanitizeEntry key v = .vStr REDACTED := by
  simp [sanitizeEntry, h]

theorem sanitizeEntry_long_string (key : List Char) (s : List Char)
    (hk : key ∉ SENSITIVE_FIELDS) (hs : 256 < s.length) :
    sanitizeEntry key (.vStr s) = .vStr (s.take 256 ++ DOTS) := by
  simp [sanitizeEntry, hk, hs]

theorem sanitizeEntry_short_string (key : List Char) (s : List Char)
    (hk : key ∉ SENSITIVE_FIELDS) (hs : ¬ 256 < s.length) :
    sanitizeEntry key (.vStr s) = .vStr s := by
  simp [sanitizeEntry, hk, hs]

theorem sanitizeEntry_nonstring (key : List Char) (v : JSValue)
    (hk : key ∉ SENSITIVE_FIELDS) (hv : ∀ s, v ≠ .vStr s) :
    sanitizeEntry key v = v := by
  cases v with
  | vStr s => exact absurd rfl (hv s)
  | vNull => simp [sanitizeEntry, hk]
  | vBool b => simp [sanitizeEntry, hk]
  | vNum n => simp [sanitizeEntry, hk]
  | vObj es => simp [sanitizeEntry, hk]

/-- C9: the log sanitizer returns non-objects (and null) unchanged; on an
object it maps each top-level entry to [REDACTED] when the key is sensitive,
to the 256-unit truncation with an ellipsis when the value is a string
longer than 256 units, and otherwise leaves the value as is — in particular
a nested object under a non-sensitive key passes through unmodified, so
sensitive keys inside it are not redacted. -/
theorem sanitize_characterization :
    (sanitize .vNull = .vNull) ∧
    (∀ b, sanitize (.vBool b) = .vBool b) ∧
    (∀ n, sanitize (.vNum n) = .vNum n) ∧
    (∀ s, sanitize (.vStr s) = .vStr s) ∧
    (∀ entries, sanitize (.vObj entries)
        = .vObj (entries.map fun kv => (kv.1, sanitizeEntry kv.1 kv.2))) ∧
    (∀ key v, key ∈ SENSITIVE_FIELDS → sanitizeEntry key v = .vStr REDACTED) ∧
    (∀ key s, key ∉ SENSITIVE_FIELDS → 256 < s.length →
        sanitizeEntry key (.vStr s) = .vStr (s.take 256 ++ DOTS)) ∧
    (∀ key s, key ∉ SENSITIVE_FIELDS → ¬ 256 < s.length →
        sanitizeEntry key (.vStr s) = .vStr s) ∧
    (∀ key sub, key ∉ SENSITIVE_FIELDS →
        sanitizeEntry key (.vObj sub) = .vObj sub) := by
  refine ⟨rfl, fun _ => rfl, fun _ => rfl, fun _ => rfl, fun _ => rfl,
    sanitizeEntry_sensitive, ?_, sanitizeEntry_short_string, ?_⟩
  · intro key s hk hs; exact sanitizeEntry_long_string key s hk hs
  · intro key sub hk; exact sanitizeEntry_nonstring key (.vObj sub) hk (by intro s h; cases h)

/-- Witness for C9: the characterization evaluated at concrete inputs — a
sensitive key is redacted and a nested object under the key "profile" passes
through with its inner "password" key untouched. -/
theorem sanitize_characterization_witness :
    sanitizeEntry "token".data (.vNum 7) = .vStr REDACTED ∧
    sanitizeEntry "profile".data (.vObj [("password".data, .vStr "x".data)])
      = .vObj [("password".data, .vStr "x".data)] := by
  constructor
  · exact sanitize_characterization.2.2.2.2.2.1 "token".data (.vNum 7) (by decide)
  · exact sanitize_characterization.2.2.2.2.2.2.2.2 "profile".data
      [("password".data, .vStr "x".data)] (by decide)

theorem sanitizeEntry_idem (key : List Char) (v : JSValue) :
    sanitizeEntry key (sanitizeEntry key v) = sanitizeEntry key v := by
  by_cases hk : key ∈ SENSITIVE_FIELDS
  · simp [sanitizeEntry, hk]
  · cases v with
    | vStr s =>
        by_cases hs : 256 < s.length
        · rw [sanitizeEntry_long_string key s hk hs]
          have hlen : (s.take 256 ++ DOTS).length = 259 := by
            have : (s.take 256).length = 256 := by
              rw [List.length_take]
              omega
            simp [this, DOTS]
          rw [sanitizeEntry_long_string key _ hk (by rw [hlen]; norm_num)]
          have htake : (s.take 256 ++ DOTS).take 256 = s.take 256 := by
            rw [List.take_append_of_le_length (by rw [List.length_take]; omega)]
            simp [List.take_take]
          rw [htake]
        · rw [sanitizeEntry_short_string key s hk hs,
              sanitizeEntry_short_string key s hk hs]
    | vNull => simp [sanitizeEntry, hk]
    | vBool b => simp [sanitizeEntry, hk]
    | vNum n => simp [sanitizeEntry, hk]
    | vObj es => simp [sanitizeEntry, hk]

/-- C10: the log sanitizer is idempotent — applying it twice gives the same
result as applying it once, on every input value. -/
theorem sanitize_idem (v : JSValue) : sanitize (sanitize v) = sanitize v := by
  cases v with
  | vObj entries =>
      simp only [sanitize, List.map_map]
      refine congrArg JSValue.vObj (List.map_congr_left ?_)
      intro kv _
      simp [Function.comp, sanitizeEntry_idem]
  | vNull => rfl
  | vBool b => rfl
  | vNum n => rfl
  | vStr s => rfl

/-- Configuration of one express-rate-limit bucket: the window length in
milliseconds and the admission ceiling. -/
structure RateConfig where
  windowMs : Nat
  limit : Nat
deriving DecidableEq

/-- The general bucket configured in src/src/index.js as apiLimiter:
15-minute window, ceiling 500 requests. -/
def apiLimiter : RateConfig := ⟨15 * 60 * 1000, 500⟩

/-- The authentication bucket configured in src/src/index.js as
loginLimiter: 5-minute window, ceiling 50 requests. -/
def loginLimiter : RateConfig := ⟨5 * 60 * 1000, 50⟩

/-- Per-key limiter record: the hit count of the current window and the
instant the window started. -/
structure LimiterEntry where
  count : Nat
  windowStart : Nat
deriving DecidableEq

/-- Modelled from the spec: the fixed-window admission step of the
express-rate-limit dependency (its code is not among the checked sources).
When the key's window has elapsed the counter restarts at zero from the
current instant; the request is then counted, and admitted exactly when the
new count stays within the ceiling. -/
def admitOne (cfg : RateConfig) (st : LimiterEntry) (now : Nat) : Bool × LimiterEntry :=
  let box := if st.windowStart + cfg.windowMs ≤ now then ⟨0, now⟩ else st
  let hits := box.count + 1
  (decide (hits ≤ cfg.limit), ⟨hits, box.windowStart⟩)

/-- Folds `admitOne` over a list of request instants for a single key,
collecting the admission decisions. -/
def runHits (cfg : RateConfig) : LimiterEntry → List Nat → List Bool × LimiterEntry
  | st, [] => ([], st)
  | st, t :: ts =>
      let step := admitOne cfg st t
      let rest := runHits cfg step.2 ts
      (step.1 :: rest.1, rest.2)

theorem admitOne_in_window (cfg : RateConfig) (k t0 t : Nat)
    (h : t < t0 + cfg.windowMs) :
    admitOne cfg ⟨k, t0⟩ t = (decide (k + 1 ≤ cfg.limit), ⟨k + 1, t0⟩) := by
  simp only [admitOne]
  rw [if_neg (by omega)]

theorem runHits_in_window_state (cfg : RateConfig) (t0 : Nat) (ts : List Nat)
    (k : Nat) (h : ∀ t ∈ ts, t < t0 + cfg.windowMs) :
    (runHits cfg ⟨k, t0⟩ ts).2 = ⟨k + ts.length, t0⟩ := by
  induction ts generalizing k with
  | nil => simp [runHits]
  | cons t ts ih =>
      have ht : t < t0 + cfg.windowMs := h t (List.mem_cons_self t ts)
      have hrest : ∀ x ∈ ts, x < t0 + cfg.windowMs :=
        fun x hx => h x (List.mem_cons_of_mem t hx)
      simp only [runHits, admitOne_in_window cfg k t0 t ht, ih (k + 1) hrest,
        List.length_cons, LimiterEntry.mk.injEq]
      exact ⟨by omega, trivial⟩

theorem runHits_in_window (cfg : RateConfig) (t0 : Nat) (ts : List Nat)
    (k : Nat) (h : ∀ t ∈ ts, t < t0 + cfg.windowMs) :
    (runHits cfg ⟨k, t0⟩ ts).1
      = (List.range ts.length).map (fun i => decide (k + i + 1 ≤ cfg.limit)) := by
  induction ts generalizing k with
  | nil => simp [runHits]
  | cons t ts ih =>
      have ht : t < t0 + cfg.windowMs := h t (List.mem_cons_self t ts)
      have hrest : ∀ x ∈ ts, x < t0 + cfg.windowMs :=
        fun x hx => h x (List.mem_cons_of_mem t hx)
      simp only [runHits, admitOne_in_window cfg k t0 t ht, ih (k + 1) hrest,
        List.length_cons, List.range_succ_eq_map, List.map_cons, List.map_map]
      refine congrArg₂ List.cons (by norm_num) (List.map_congr_left ?_)
      intro i _
      have hiq : k + (i + 1) + 1 = k + 1 + i + 1 := by omega
      simp [Function.comp, hiq]

/-- C7: the two buckets carry the configured window sizes and ceilings
(500 per 15-minute window for the general bucket, 50 per 5-minute window
for the auth bucket); within a single window a fresh key's requests are
admitted exactly while the running count stays within the ceiling — so the
first `limit` requests are Allowed and the following ones Limited — and a
request arriving after the window has elapsed restarts the counter from
zero, being counted as the first hit of the new window. -/
theorem rate_limiter_window_behavior :
    (apiLimiter = ⟨15 * 60 * 1000, 500⟩ ∧ loginLimiter = ⟨5 * 60 * 1000, 50⟩) ∧
    (∀ cfg : RateConfig, ∀ t0 : Nat, ∀ ts : List Nat,
        (∀ t ∈ ts, t < t0 + cfg.windowMs) →
        (runHits cfg ⟨0, t0⟩ ts).1
          = (List.range ts.length).map (fun i => decide (i + 1 ≤ cfg.limit))) ∧
    (∀ cfg : RateConfig, ∀ st : LimiterEntry, ∀ now : Nat,
        st.windowStart + cfg.windowMs ≤ now →
        admitOne cfg st now = (decide (1 ≤ cfg.limit), ⟨1, now⟩)) := by
  refine ⟨⟨rfl, rfl⟩, ?_, ?_⟩
  · intro cfg t0 ts h
    rw [runHits_in_window cfg t0 ts 0 h]
    refine List.map_congr_left ?_
    intro i _
    simp
  · intro cfg st now h
    simp only [admitOne]
    rw [if_pos h]

/-- Witness for C7: on the auth bucket, three requests inside one window
from a fresh key with ceiling artificially reached show the boundary — with
the real loginLimiter ceiling 50, requests number 50 and 51 at instant 0
decide to true and false respectively, and a request after the window
restarts the count at 1. -/
theorem rate_limiter_window_behavior_witness :
    (runHits loginLimiter ⟨0, 0⟩ (List.replicate 51 0)).1
      = List.replicate 50 true ++ [false] ∧
    admitOne loginLimiter ⟨50, 0⟩ 300000 = (true, ⟨1, 300000⟩) := by
  constructor
  · have h := rate_limiter_window_behavior.2.1 loginLimiter 0 (List.replicate 51 0)
      (by intro t ht; simp [List.eq_of_mem_replicate ht, loginLimiter])
    rw [h]
    decide
  · have h := rate_limiter_window_behavior.2.2 loginLimiter ⟨50, 0⟩ 300000 (by decide)
    rw [h]
    decide

/-- The two rate-limit buckets wired in src/src/index.js. -/
inductive Bucket where
  | general
  | auth
deriving DecidableEq

/-- The HTTP endpoints the application serves: the auth router endpoints
mounted at /api/auth, the user router endpoints mounted at /api/user, the
swagger endpoints, the metrics endpoint and the root greeting (from
src/src/index.js and the route paths exercised by the test suites). -/
inductive Endpoint where
  | authInitTable
  | authRegister
  | authLogin
  | authMe
  | authVerifyToken
  | authPasswordChange
  | authLogout
  | userGetProfile
  | userUpdateProfile
  | userSubscription
  | userAvatar
  | docs
  | docsJson
  | metrics
  | root
deriving DecidableEq

/-- True exactly for the endpoints reached through the /api/auth mount. -/
def onAuthMount : Endpoint → Bool
  | .authInitTable | .authRegister | .authLogin | .authMe
  | .authVerifyToken | .authPasswordChange | .authLogout => true
  | _ => false

/-- True exactly for the endpoints reached through the /api/user mount. -/
def onUserMount : Endpoint → Bool
  | .userGetProfile | .userUpdateProfile | .userSubscription | .userAvatar => true
  | _ => false

/-- The chain of rate-limit buckets a request to each endpoint passes,
read off the mounting lines of src/src/index.js: line 126 places only
loginLimiter ahead of the auth router, line 127 places only apiLimiter
ahead of the user router, and the swagger, metrics and root handlers
(lines 140-159) are registered with no limiter at all. -/
def endpointLimiters (e : Endpoint) : List Bucket :=
  if onAuthMount e then [.auth]
  else if onUserMount e then [.general]
  else []

/-- Counterexample to C5: the general bucket does not gate the whole API
surface — the metrics endpoint passes no limiter at all, and requests to
the login endpoint pass only the auth bucket, never the general one. -/
theorem general_limiter_not_global :
    Bucket.general ∉ endpointLimiters Endpoint.metrics ∧
    Bucket.general ∉ endpointLimiters Endpoint.authLogin := by
  decide

/-- C5 as amended: the general bucket gates exactly the endpoints mounted
under /api/user, the auth bucket gates exactly the endpoints mounted under
/api/auth (alone, without the general bucket), and the swagger, metrics and
root endpoints pass no rate-limit bucket at all. -/
theorem limiter_wiring :
    (∀ e, onAuthMount e = true → endpointLimiters e = [Bucket.auth]) ∧
    (∀ e, onUserMount e = true → endpointLimiters e = [Bucket.general]) ∧
    endpointLimiters Endpoint.docs = [] ∧
    endpointLimiters Endpoint.docsJson = [] ∧
    endpointLimiters Endpoint.metrics = [] ∧
    endpointLimiters Endpoint.root = [] := by
  refine ⟨?_, ?_, rfl, rfl, rfl, rfl⟩
  · intro e h
    cases e <;> simp_all [endpointLimiters, onAuthMount]
  · intro e h
    cases e <;> simp_all [endpointLimiters, onUserMount, onAuthMount]

/-- Witness for C5 (amended): evaluated at the login and get-profile
endpoints. -/
theorem limiter_wiring_witness :
    endpointLimiters Endpoint.authLogin = [Bucket.auth] ∧
    endpointLimiters Endpoint.userGetProfile = [Bucket.general] := by
  exact ⟨limiter_wiring.1 Endpoint.authLogin rfl,
         limiter_wiring.2.1 Endpoint.userGetProfile rfl⟩

/-- A stored user record. Modelled from the spec: the user model file is
not among the checked sources, so the fields follow the data model of
spec §3 (passwordHash is the stored hash, subscriptionType the closed
enum, avatarRef the optional blob pointer). -/
structure UserRec where
  id : Nat
  username : List Char
  email : List Char
  passwordHash : List Char
  subscriptionType : List Char
  avatarRef : Option (List Char)
deriving DecidableEq

/-- An access token as the token service mints it: the identity claims
snapshot {id, username, email} plus issuance and expiry instants in
milliseconds. Modelled from the spec: the token service file is not among
the checked sources. -/
structure AccessToken where
  userId : Nat
  username : List Char
  email : List Char
  issuedAt : Nat
  expiresAt : Nat
deriving DecidableEq

/-- Revocation state of the token service: the most recent watermark per
user id heads the list; a user without an entry has watermark 0 (never
revoked). Modelled from the spec (§4.2, §9: a revocation watermark
timestamp per user). -/
structure TokenState where
  watermarks : List (Nat × Nat)
deriving DecidableEq

/-- The revocation watermark currently in force for a user. -/
def watermarkOf (st : TokenState) (uid : Nat) : Nat :=
  match st.watermarks.find? (fun p => p.1 == uid) with
  | some p => p.2
  | none => 0

/-- Modelled from the spec (§4.2): revokeUser records the current instant
as the user's revocation watermark, superseding any earlier one. -/
def revokeUser (st : TokenState) (uid now : Nat) : TokenState :=
  ⟨(uid, now) :: st.watermarks⟩

/-- Outcome of access-token verification. -/
inductive VerifyResult where
  | ok (tok : AccessToken)
  | expired
  | invalid
deriving DecidableEq

/-- Modelled from the spec (§4.2): verification is a pure function of the
token and the user's revocation watermark — the token fails once its
expiry instant has passed, fails as invalid when it was issued before the
watermark even if unexpired, and otherwise yields its claims. -/
def verifyAccess (st : TokenState) (tok : AccessToken) (now : Nat) : VerifyResult :=
  if tok.expiresAt ≤ now then .expired
  else if tok.issuedAt < watermarkOf st tok.userId then .invalid
  else .ok tok

/-- Modelled from the spec (§4.2): an access token minted now for a user
carries that user's claims and expires one TTL later. -/
def issueAccessToken (u : UserRec) (now ttl : Nat) : AccessToken :=
  ⟨u.id, u.username, u.email, now, now + ttl⟩

/-- Outcome of a login call: either the credential pair, or the bare
Unauthorized outcome with no payload at all. -/
inductive LoginResult where
  | success (access refresh : AccessToken)
  | unauthorized
deriving DecidableEq

/-- Modelled from the spec (§4.4): login looks the user up by username and
compares the presented password against the stored hash; on a missing user
or on a mismatch it returns the same bare Unauthorized outcome. The hash
function is the external bcrypt-class collaborator, passed as a
parameter. -/
def login (hash : List Char → List Char) (store : List UserRec)
    (uname pass : List Char) (now ttl rttl : Nat) : LoginResult :=
  match store.find? (fun u => u.username == uname) with
  | none => .unauthorized
  | some u =>
      if hash pass == u.passwordHash then
        .success (issueAccessToken u now ttl) (issueAccessToken u now rttl)
      else .unauthorized

/-- Modelled from the spec (§4.4): logout calls revokeUser for the user
and always succeeds. -/
def logout (st : TokenState) (uid now : Nat) : TokenState :=
  revokeUser st uid now

/-- Outcome of a password change. -/
inductive PasswordChangeResult where
  | success
  | unauthorized
deriving DecidableEq

/-- Modelled from the spec (§4.4): passwordChange re-validates the old
password against the stored hash, persists the rehashed new password and
then calls revokeUser; on a missing user or a mismatch nothing changes. -/
def passwordChange (hash : List Char → List Char) (store : List UserRec)
    (st : TokenState) (uid : Nat) (oldPw newPw : List Char) (now : Nat) :
    PasswordChangeResult × List UserRec × TokenState :=
  match store.find? (fun u => u.id == uid) with
  | none => (.unauthorized, store, st)
  | some u =>
      if hash oldPw == u.passwordHash then
        (.success,
         store.map (fun v => if v.id == uid then { v with passwordHash := hash newPw } else v),
         revokeUser st uid now)
      else (.unauthorized, store, st)

theorem watermarkOf_revokeUser (st : TokenState) (uid now : Nat) :
    watermarkOf (revokeUser st uid now) uid = now := by
  unfold watermarkOf revokeUser
  rw [List.find?_cons_of_pos _ (by simp)]

theorem verifyAccess_revoked (st : TokenState) (uid : Nat)
    (tok : AccessToken) (tCall tVer : Nat) (hid : tok.userId = uid)
    (hiss : tok.issuedAt < tCall) (hexp : tVer < tok.expiresAt) :
    verifyAccess (revokeUser st uid tCall) tok tVer = .invalid := by
  unfold verifyAccess
  rw [if_neg (by omega), hid, watermarkOf_revokeUser]
  rw [if_pos hiss]

/-- C1: an access token issued before a logout, or before a successful
password change, fails verification afterwards even though its natural
expiry has not elapsed — the revocation watermark written by the call
rejects it. -/
theorem revocation_invalidates_old_tokens :
    (∀ (st : TokenState) (uid : Nat) (tok : AccessToken) (tCall tVer : Nat),
        tok.userId = uid → tok.issuedAt < tCall → tVer < tok.expiresAt →
        verifyAccess (logout st uid tCall) tok tVer = .invalid) ∧
    (∀ (hash : List Char → List Char) (store : List UserRec) (st : TokenState)
        (uid : Nat) (oldPw newPw : List Char) (tok : AccessToken) (tCall tVer : Nat),
        (passwordChange hash store st uid oldPw newPw tCall).1 = .success →
        tok.userId = uid → tok.issuedAt < tCall → tVer < tok.expiresAt →
        verifyAccess (passwordChange hash store st uid oldPw newPw tCall).2.2 tok tVer
          = .invalid) := by
  constructor
  · intro st uid tok tCall tVer hid hiss hexp
    exact verifyAccess_revoked st uid tok tCall tVer hid hiss hexp
  · intro hash store st uid oldPw newPw tok tCall tVer hsucc hid hiss hexp
    unfold passwordChange at hsucc ⊢
    cases hfind : store.find? (fun u => u.id == uid) with
    | none => rw [hfind] at hsucc; cases hsucc
    | some u =>
        simp only [hfind] at hsucc ⊢
        by_cases hcmp : (hash oldPw == u.passwordHash) = true
        · rw [if_pos hcmp]
          exact verifyAccess_revoked st uid tok tCall tVer hid hiss hexp
        · rw [if_neg hcmp] at hsucc; cases hsucc

/-- Witness for C1: a token for user 1 issued at instant 5 with expiry 100
is rejected at instant 8 after a logout at instant 7, and likewise after a
successful password change at instant 7. -/
theorem revocation_invalidates_old_tokens_witness :
    verifyAccess (logout ⟨[]⟩ 1 7) ⟨1, "a".data, "a@x".data, 5, 100⟩ 8 = .invalid ∧
    verifyAccess (passwordChange (fun p => p)
        [⟨1, "a".data, "a@x".data, "pw".data, "free".data, none⟩]
        ⟨[]⟩ 1 "pw".data "pw2".data 7).2.2
      ⟨1, "a".data, "a@x".data, 5, 100⟩ 8 = .invalid := by
  constructor
  · exact revocation_invalidates_old_tokens.1 ⟨[]⟩ 1 ⟨1, "a".data, "a@x".data, 5, 100⟩
      7 8 rfl (by norm_num) (by norm_num)
  · exact revocation_invalidates_old_tokens.2 (fun p => p)
      [⟨1, "a".data, "a@x".data, "pw".data, "free".data, none⟩] ⟨[]⟩ 1
      "pw".data "pw2".data ⟨1, "a".data, "a@x".data, 5, 100⟩ 7 8
      (by decide) rfl (by norm_num) (by norm_num)

/-- C2: a login presenting an existing username with a wrong password and a
login presenting a nonexistent username produce the very same bare
Unauthorized outcome — the constructor carries no payload, so the two
rejections are indistinguishable and no user-existence detail leaks. -/
theorem login_no_user_existence_leak :
    ∀ (hash : List Char → List Char) (store : List UserRec) (u : UserRec)
      (pass1 uname2 pass2 : List Char) (now ttl rttl : Nat),
      store.find? (fun v => v.username == u.username) = some u →
      hash pass1 ≠ u.passwordHash →
      store.find? (fun v => v.username == uname2) = none →
      login hash store u.username pass1 now ttl rttl = .unauthorized ∧
      login hash store uname2 pass2 now ttl rttl = .unauthorized ∧
      login hash store u.username pass1 now ttl rttl
        = login hash store uname2 pass2 now ttl rttl := by
  intro hash store u pass1 uname2 pass2 now ttl rttl hfind hne hnone
  have h1 : login hash store u.username pass1 now ttl rttl = .unauthorized := by
    unfold login
    simp only [hfind]
    rw [if_neg (by simpa using hne)]
  have h2 : login hash store uname2 pass2 now ttl rttl = .unauthorized := by
    unfold login
    rw [hnone]
  exact ⟨h1, h2, h1.trans h2.symm⟩

/-- Witness for C2: with the identity function standing in for the hash, a
wrong-password login for the stored user alice and any login for the absent
username ghost both evaluate to the bare Unauthorized outcome. -/
theorem login_no_user_existence_leak_witness :
    login (fun p => p) [⟨1, "alice".data, "a@x".data, "pw".data, "free".data, none⟩]
        "alice".data "bad".data 0 10 20 = .unauthorized ∧
    login (fun p => p) [⟨1, "alice".data, "a@x".data, "pw".data, "free".data, none⟩]
        "ghost".data "any".data 0 10 20 = .unauthorized := by
  have h := login_no_user_existence_leak (fun p => p)
    [⟨1, "alice".data, "a@x".data, "pw".data, "free".data, none⟩]
    ⟨1, "alice".data, "a@x".data, "pw".data, "free".data, none⟩
    "bad".data "ghost".data "any".data 0 10 20
    (by decide) (by decide) (by decide)
  exact ⟨h.1, h.2.1⟩

/-- Modelled from the spec (§4.1, §6): the outward serialization of a user
record — the body returned to HTTP callers by the profile and register
responses — carrying the public fields and no passwordHash entry. -/
def serializeUser (u : UserRec) : JSValue :=
  .vObj [("id".data, .vNum (u.id : Int)),
         ("username".data, .vStr u.username),
         ("email".data, .vStr u.email),
         ("subscriptionType".data, .vStr u.subscriptionType),
         ("avatarRef".data, match u.avatarRef with
                            | some r => .vStr r
                            | none => .vNull)]

/-- Top-level keys of an object value (empty for non-objects). -/
def objKeys : JSValue → List (List Char)
  | .vObj es => es.map Prod.fst
  | _ => []

/-- Outcome of a register call. -/
inductive RegisterResult where
  | created (body : JSValue)
  | conflict

/-- Modelled from the spec (§4.4): register hashes the password and
delegates user creation to the store; the uniqueness check over username
and email yields Conflict, and a created user is returned serialized,
never with the hash. -/
def register (hash : List Char → List Char) (store : List UserRec)
    (uname email pw : List Char) (newId : Nat) : RegisterResult × List UserRec :=
  if store.any (fun u => u.username == uname || u.email == email) then
    (.conflict, store)
  else
    let u : UserRec := ⟨newId, uname, email, hash pw, "free".data, none⟩
    (.created (serializeUser u), u :: store)

/-- Outcome of a user-router route. -/
inductive RouteResult where
  | okBody (body : JSValue)
  | forbidden
  | notFound
  | validationError

/-- The closed subscription enum of spec §3. -/
def SUBSCRIPTION_TYPES : List (List Char) :=
  ["free".data, "premium".data, "enterprise".data]

/-- The ownership-checked routes of the user router (spec §6): profile
read, profile update, subscription update and avatar upload. -/
inductive OwnedRoute where
  | getProfile
  | updateProfile (newUsername newEmail : Option (List Char))
  | updateSubscription (ty : List Char)
  | uploadAvatar (blobRef : List Char)

/-- Modelled from the spec (§4.1, §6): the controller action behind each
ownership-checked route, acting on the path's target user once ownership
has been established. -/
def routeAction (r : OwnedRoute) (uid : Nat) (store : List UserRec) :
    RouteResult × List UserRec :=
  match store.find? (fun u => u.id == uid) with
  | none => (.notFound, store)
  | some u =>
      match r with
      | .getProfile => (.okBody (serializeUser u), store)
      | .updateProfile nu ne =>
          let u' := { u with username := nu.getD u.username, email := ne.getD u.email }
          (.okBody (serializeUser u'), store.map (fun v => if v.id == uid then u' else v))
      | .updateSubscription ty =>
          if ty ∈ SUBSCRIPTION_TYPES then
            let u' := { u with subscriptionType := ty }
            (.okBody (serializeUser u'), store.map (fun v => if v.id == uid then u' else v))
          else (.validationError, store)
      | .uploadAvatar blobRef =>
          let u' := { u with avatarRef := some blobRef }
          (.okBody (serializeUser u'), store.map (fun v => if v.id == uid then u' else v))

/-- Modelled from the spec (§6): every ownership-checked route compares the
authenticated token's id with the path's target id and only on a match
runs the controller action; otherwise it rejects with Forbidden, touching
nothing. -/
def handleOwnedRoute (r : OwnedRoute) (authId targetId : Nat)
    (store : List UserRec) : RouteResult × List UserRec :=
  if authId == targetId then routeAction r targetId store
  else (.forbidden, store)

theorem serializeUser_no_hash_key (u : UserRec) :
    "passwordHash".data ∉ objKeys (serializeUser u) := by
  have hkeys : objKeys (serializeUser u)
      = ["id".data, "username".data, "email".data,
         "subscriptionType".data, "avatarRef".data] := rfl
  rw [hkeys]
  decide

theorem okBody_pair_eq {a body : JSValue} {s1 s2 : List UserRec}
    (h : ((RouteResult.okBody a, s1) : RouteResult × List UserRec)
          = (RouteResult.okBody body, s2)) : body = a := by
  injection h with h1 h2
  injection h1 with h3
  exact h3.symm

theorem routeAction_body_is_serialized (r : OwnedRoute) (uid : Nat)
    (store : List UserRec) (body : JSValue) (store' : List UserRec)
    (h : routeAction r uid store = (.okBody body, store')) :
    ∃ u : UserRec, body = serializeUser u := by
  cases r with
  | getProfile =>
      unfold routeAction at h
      cases hfind : store.find? (fun u => u.id == uid) with
      | none =>
          simp only [hfind] at h
          exact RouteResult.noConfusion (congrArg Prod.fst h)
      | some u =>
          simp only [hfind] at h
          exact ⟨u, okBody_pair_eq h⟩
  | updateProfile nu ne =>
      unfold routeAction at h
      cases hfind : store.find? (fun u => u.id == uid) with
      | none =>
          simp only [hfind] at h
          exact RouteResult.noConfusion (congrArg Prod.fst h)
      | some u =>
          simp only [hfind] at h
          exact ⟨_, okBody_pair_eq h⟩
  | updateSubscription ty =>
      unfold routeAction at h
      cases hfind : store.find? (fun u => u.id == uid) with
      | none =>
          simp only [hfind] at h
          exact RouteResult.noConfusion (congrArg Prod.fst h)
      | some u =>
          simp only [hfind] at h
          by_cases hty : ty ∈ SUBSCRIPTION_TYPES
          · rw [if_pos hty] at h
            exact ⟨_, okBody_pair_eq h⟩
          · rw [if_neg hty] at h
            cases h
  | uploadAvatar blobRef =>
      unfold routeAction at h
      cases hfind : store.find? (fun u => u.id == uid) with
      | none =>
          simp only [hfind] at h
          exact RouteResult.noConfusion (congrArg Prod.fst h)
      | some u =>
          simp only [hfind] at h
          exact ⟨_, okBody_pair_eq h⟩

/-- C3: no serialized result crossing the trust boundary carries the
passwordHash field — the user serializer never emits the key, every
successful body produced by an ownership-checked route omits it, and the
user body returned by register omits it (login returns only the token
pair, whose claims are id, username and email by construction). -/
theorem no_password_hash_leak :
    (∀ u : UserRec, "passwordHash".data ∉ objKeys (serializeUser u)) ∧
    (∀ (r : OwnedRoute) (authId targetId : Nat) (store : List UserRec)
        (body : JSValue) (store' : List UserRec),
        handleOwnedRoute r authId targetId store = (.okBody body, store') →
        "passwordHash".data ∉ objKeys body) ∧
    (∀ (hash : List Char → List Char) (store : List UserRec)
        (uname email pw : List Char) (newId : Nat) (body : JSValue)
        (store' : List UserRec),
        register hash store uname email pw newId = (.created body, store') →
        "passwordHash".data ∉ objKeys body) := by
  refine ⟨serializeUser_no_hash_key, ?_, ?_⟩
  · intro r authId targetId store body store' h
    unfold handleOwnedRoute at h
    by_cases hid : (authId == targetId) = true
    · rw [if_pos hid] at h
      obtain ⟨u, hu⟩ := routeAction_body_is_serialized r targetId store body store' h
      rw [hu]
      exact serializeUser_no_hash_key u
    · rw [if_neg hid] at h
      cases h
  · intro hash store uname email pw newId body store' h
    unfold register at h
    by_cases hdup : (store.any (fun u => u.username == uname || u.email == email)) = true
    · rw [if_pos hdup] at h
      cases h
    · rw [if_neg hdup] at h
      have := congrArg Prod.fst h
      cases this
      exact serializeUser_no_hash_key _

/-- Witness for C3: the bodies produced by a concrete profile read and a
concrete register both lack the passwordHash key. -/
theorem no_password_hash_leak_witness :
    "passwordHash".data ∉ objKeys (serializeUser
      ⟨1, "alice".data, "a@x".data, "pw".data, "free".data, none⟩) ∧
    "passwordHash".data ∉ objKeys (serializeUser
      ⟨2, "bob".data, "b@x".data, "pw2".data, "free".data, none⟩) := by
  constructor
  · exact no_password_hash_leak.2.1 .getProfile 1 1
      [⟨1, "alice".data, "a@x".data, "pw".data, "free".data, none⟩]
      (serializeUser ⟨1, "alice".data, "a@x".data, "pw".data, "free".data, none⟩)
      [⟨1, "alice".data, "a@x".data, "pw".data, "free".data, none⟩] rfl
  · exact no_password_hash_leak.2.2 (fun p => p) [] "bob".data "b@x".data
      "pw2".data 2
      (serializeUser ⟨2, "bob".data, "b@x".data, "pw2".data, "free".data, none⟩)
      [⟨2, "bob".data, "b@x".data, "pw2".data, "free".data, none⟩] rfl

/-- C4: every ownership-checked route, presented with a valid token whose
authenticated id differs from the path's target id, rejects with Forbidden
and leaves the store — in particular the target user's record —
unchanged. -/
theorem ownership_check_rejects_cross_user :
    ∀ (r : OwnedRoute) (authId targetId : Nat) (store : List UserRec),
      authId ≠ targetId →
      handleOwnedRoute r authId targetId store = (.forbidden, store) := by
  intro r authId targetId store h
  unfold handleOwnedRoute
  rw [if_neg (by simpa using h)]

/-- Witness for C4: user 1's token against user 2's profile route is
rejected with Forbidden and the store is untouched. -/
theorem ownership_check_rejects_cross_user_witness :
    handleOwnedRoute .getProfile 1 2
        [⟨2, "bob".data, "b@x".data, "pw".data, "free".data, none⟩]
      = (.forbidden, [⟨2, "bob".data, "b@x".data, "pw".data, "free".data, none⟩]) := by
  exact ownership_check_rejects_cross_user .getProfile 1 2
    [⟨2, "bob".data, "b@x".data, "pw".data, "free".data, none⟩] (by decide)

/-- Requests the auth router serves, as far as the admission-gate claim
observes them. -/
inductive AuthReq where
  | regReq (uname email pw : List Char) (newId : Nat)
  | loginReq (uname pw : List Char)
  | logoutReq (uid : Nat)

/-- HTTP-level outcome of a request to the auth mount. -/
inductive HttpOutcome where
  | okTokens (access refresh : AccessToken)
  | createdUser (body : JSValue)
  | okDone
  | unauthorizedOut
  | conflictOut
  | tooManyRequests

/-- Whole-application state the auth pipeline touches: the user store, the
token-service revocation state, a log of every minted token, and the
caller's limiter entry for the auth bucket. -/
structure AppState where
  users : List UserRec
  tokens : TokenState
  minted : List AccessToken
  limiter : LimiterEntry

/-- Modelled from the spec (§4.4) and the routes the auth router mounts:
dispatch of an admitted request to the auth service, recording every
minted token. -/
def authRouterHandle (hash : List Char → List Char) (req : AuthReq)
    (s : AppState) (now ttl rttl : Nat) : HttpOutcome × AppState :=
  match req with
  | .regReq uname email pw newId =>
      match register hash s.users uname email pw newId with
      | (.created body, store') => (.createdUser body, { s with users := store' })
      | (.conflict, _) => (.conflictOut, s)
  | .loginReq uname pw =>
      match login hash s.users uname pw now ttl rttl with
      | .success a r => (.okTokens a r, { s with minted := a :: r :: s.minted })
      | .unauthorized => (.unauthorizedOut, s)
  | .logoutReq uid =>
      (.okDone, { s with tokens := logout s.tokens uid now })

/-- Embedding of the mounting line of src/src/index.js for /api/auth: the
auth-bucket limiter runs first and, when it rejects, the request is
answered 429 with the router never running. -/
def handleAuthApi (hash : List Char → List Char) (req : AuthReq)
    (s : AppState) (now ttl rttl : Nat) : HttpOutcome × AppState :=
  let gate := admitOne loginLimiter s.limiter now
  if gate.1 then
    authRouterHandle hash req { s with limiter := gate.2 } now ttl rttl
  else
    (.tooManyRequests, { s with limiter := gate.2 })

/-- C6: when the auth bucket returns Limited, the request is answered 429
and neither the user store, nor the token-service state, nor the set of
minted tokens changes — the limiter is a pure admission gate running ahead
of AuthService and UserStore. -/
theorem rate_limited_request_reaches_no_service :
    ∀ (hash : List Char → List Char) (req : AuthReq) (s : AppState)
      (now ttl rttl : Nat),
      (admitOne loginLimiter s.limiter now).1 = false →
      (handleAuthApi hash req s now ttl rttl).1 = .tooManyRequests ∧
      (handleAuthApi hash req s now ttl rttl).2.users = s.users ∧
      (handleAuthApi hash req s now ttl rttl).2.tokens = s.tokens ∧
      (handleAuthApi hash req s now ttl rttl).2.minted = s.minted := by
  intro hash req s now ttl rttl h
  unfold handleAuthApi
  simp only [h]
  exact ⟨rfl, rfl, rfl, rfl⟩

/-- Witness for C6: a caller whose auth-bucket entry already sits at the
ceiling of 50 inside the current window is answered 429 and the concrete
application state keeps its store, token state and minted list. -/
theorem rate_limited_request_reaches_no_service_witness :
    (handleAuthApi (fun p => p) (.logoutReq 1)
        ⟨[], ⟨[]⟩, [], ⟨50, 0⟩⟩ 0 10 20).1 = .tooManyRequests ∧
    (handleAuthApi (fun p => p) (.logoutReq 1)
        ⟨[], ⟨[]⟩, [], ⟨50, 0⟩⟩ 0 10 20).2.users = [] ∧
    (handleAuthApi (fun p => p) (.logoutReq 1)
        ⟨[], ⟨[]⟩, [], ⟨50, 0⟩⟩ 0 10 20).2.tokens = ⟨[]⟩ ∧
    (handleAuthApi (fun p => p) (.logoutReq 1)
        ⟨[], ⟨[]⟩, [], ⟨50, 0⟩⟩ 0 10 20).2.minted = [] := by
  exact rate_limited_request_reaches_no_service (fun p => p) (.logoutReq 1)
    ⟨[], ⟨[]⟩, [], ⟨50, 0⟩⟩ 0 10 20 (by decide)

/-- Environment configuration as the startup code of src/src/index.js
consults it for the real-time channel: the raw ENABLE_WEBSOCKETS value. -/
structure EnvConfig where
  enableWebsockets : List Char

/-- Observable shape of the startup sequence of src/src/index.js: whether
createSocketServer was invoked on the HTTP server, and whether the listen
callback prints the websockets-enabled message. -/
structure StartupShape where
  socketServerCreated : Bool
  websocketsLogged : Bool

/-- Embedding of the startup of src/src/index.js: line 26 calls
createSocketServer(server) unconditionally at module load, and the
ENABLE_WEBSOCKETS toggle is consulted only inside the listen callback
(lines 164-166) to decide whether to print the websockets log line. -/
def startup (env : EnvConfig) : StartupShape :=
  { socketServerCreated := true,
    websocketsLogged := env.enableWebsockets == "true".data }

/-- Counterexample to C8: with ENABLE_WEBSOCKETS set to "false" the toggle
does not enable the channel, yet the startup sequence still creates the
socket server. -/
theorem websocket_toggle_ignored_at_creation :
    ("false".data ≠ "true".data) ∧
    (startup ⟨"false".data⟩).socketServerCreated = true := by
  exact ⟨by decide, rfl⟩

/-- C8 as amended: the socket server is created unconditionally at startup,
whatever the environment; the ENABLE_WEBSOCKETS toggle controls only
whether the startup log message announces websockets. -/
theorem websocket_toggle_controls_log_only :
    (∀ env : EnvConfig, (startup env).socketServerCreated = true) ∧
    (∀ env : EnvConfig,
        (startup env).websocketsLogged
          = (env.enableWebsockets == "true".data)) := by
  exact ⟨fun _ => rfl, fun _ => rfl⟩

end NodeTemplate
